import Mathlib

/-!
Verification of the object-detection Streamlit app (`app.py`) against its
specification.

The app is UI glue around an external detector (ultralytics YOLO) and an
external UI framework (streamlit).  We embed the repository's own logic:

* `process_results` (app.py lines 27-39): the Frame Annotator — walks the
  detector results, collects `(label, conf, (x1,y1,x2,y2))` tuples, and draws
  a rectangle and a text label per box onto the frame.
* the Home/Image branch (lines 54-65), the Home/Video loop (lines 67-83), the
  Live Detection webcam loop (lines 86-102), and the bottom-of-script
  `if not model:` error (lines 127-128).

External collaborators are modelled at their interfaces:

* A frame is a mutable pixel buffer; its original contents are abstracted as
  an identifier `base`, and the in-place drawing done by `cv2.rectangle` /
  `cv2.putText` is tracked as an ordered list of draw operations `ops`
  appended to the buffer.  Two frames are pixel-identical iff they have the
  same `base` and the same `ops`.
* The detector (`model.predict`) is a function supplied by the `Model`
  structure; it may fail (`Except`), modelling an adapter exception
  propagating out of the call (spec §7: inference failures are unhandled).
  Its optional threshold argument records whether the call site passed
  `conf=...` or relied on the library default.
* `cv2.VideoCapture` is a `Capture`: an `opened` flag plus the finite list of
  frames that successive `read()` calls will yield before a read fails.
* streamlit output calls (`st.image`/`stframe.image`, `st.write`, `st.error`)
  are recorded as an event trace; constant decorative text (titles,
  subheaders, the About/Developers prose) carries no claim-relevant data and
  is elided from the trace.
-/

namespace ObjDetect

/-- Python `int(...)` applied to a float coordinate: truncation toward zero. -/
def pyInt (q : Rat) : Int :=
  if q < 0 then -((-q).floor) else q.floor

/-- Round a rational to the nearest integer, ties to even — the rounding used
by Python float formatting (`f"{x:.2f}"`). -/
def roundHalfEven (q : Rat) : Int :=
  let f := q.floor
  let frac := q - (f : Rat)
  if frac < 1/2 then f
  else if 1/2 < frac then f + 1
  else if f % 2 = 0 then f else f + 1

/-- Two-digit zero-padded rendering of a natural number below 100. -/
def pad2 (n : Nat) : String :=
  if n < 10 then "0" ++ toString n else toString n

/-- Python `f"{q:.2f}"`: the value rounded to two decimal places. -/
def fmt2 (q : Rat) : String :=
  let c := roundHalfEven (q * 100)
  if c < 0 then "-" ++ toString ((-c) / 100) ++ "." ++ pad2 ((-c) % 100).toNat
  else toString (c / 100) ++ "." ++ pad2 (c % 100).toNat

/-- One detector box, as the adapter returns it: raw float corner coordinates
(`bbox.xyxy[0]`), integer class id (`bbox.cls`), confidence (`bbox.conf`). -/
structure Box where
  x1 : Rat
  y1 : Rat
  x2 : Rat
  y2 : Rat
  cls : Nat
  conf : Rat
deriving DecidableEq

/-- One element of the list returned by `model.predict`: a result holding a
list of boxes (`result.boxes`). -/
structure DetResult where
  boxes : List Box
deriving DecidableEq

/-- The tuple `(label, conf, (x1, y1, x2, y2))` appended to
`detected_objects` in `process_results`. -/
def Detection : Type := String × Rat × (Int × Int × Int × Int)

instance : DecidableEq Detection := by
  unfold Detection
  infer_instance

/-- One in-place drawing call on the frame buffer.  `rectangle` keeps the two
corner points, the BGR color and the thickness of `cv2.rectangle` (a positive
thickness draws an unfilled outline); `putText` keeps the text, origin, font
id, font scale, color and thickness of `cv2.putText`. -/
inductive DrawOp where
  | rectangle (p1 p2 : Int × Int) (color : Nat × Nat × Nat) (thickness : Nat)
  | putText (text : String) (org : Int × Int) (font : Nat) (fontScale : Rat)
      (color : Nat × Nat × Nat) (thickness : Nat)
deriving DecidableEq

/-- A mutable pixel buffer: `base` abstracts the original pixel contents,
`ops` is the ordered list of drawing mutations applied to it so far.  Frames
are pixel-identical iff they are equal. -/
structure Frame where
  base : Nat
  ops : List DrawOp
deriving DecidableEq

/-- The OpenCV font constant `cv2.FONT_HERSHEY_SIMPLEX` (equal to 0). -/
def FONT_HERSHEY_SIMPLEX : Nat := 0

/-- The detection tuple built for one box in `process_results` (line 31-34):
coordinates go through `map(int, bbox.xyxy[0])`, the label through
`model.names[int(bbox.cls)]`, the confidence through `float(bbox.conf)`. -/
def detOf (names : Nat → String) (b : Box) : Detection :=
  (names b.cls, b.conf, (pyInt b.x1, pyInt b.y1, pyInt b.x2, pyInt b.y2))

/-- The two drawing calls made for one box (lines 36-38):
`cv2.rectangle(image, (x1, y1), (x2, y2), (0, 255, 0), 2)` and
`cv2.putText(image, f"{label} ({conf:.2f})", (x1, y1 - 10),
cv2.FONT_HERSHEY_SIMPLEX, 0.5, (0, 255, 0), 2)`. -/
def drawOpsOf (names : Nat → String) (b : Box) : List DrawOp :=
  [DrawOp.rectangle (pyInt b.x1, pyInt b.y1) (pyInt b.x2, pyInt b.y2) (0, 255, 0) 2,
   DrawOp.putText (names b.cls ++ " (" ++ fmt2 b.conf ++ ")")
     (pyInt b.x1, pyInt b.y1 - 10) FONT_HERSHEY_SIMPLEX (1/2) (0, 255, 0) 2]

/-- The body of the inner `for bbox in result.boxes` loop: append the
detection tuple and mutate the frame with the two drawing calls. -/
def annStep (names : Nat → String) (acc : List Detection × Frame) (bbox : Box) :
    List Detection × Frame :=
  (acc.1 ++ [detOf names bbox], Frame.mk acc.2.base (acc.2.ops ++ drawOpsOf names bbox))

/-- The function `process_results(results, image)` (app.py lines 27-39).  `names` is the
global model's `model.names` mapping read inside the function body.  Returns
the `detected_objects` list together with the mutated frame. -/
def process_results (names : Nat → String) (results : List DetResult) (image : Frame) :
    List Detection × Frame :=
  results.foldl (fun acc result => result.boxes.foldl (annStep names) acc) ([], image)

/-- Whether one top-to-bottom script run finished normally or was aborted by
a propagating exception (spec §7: inference failures are unhandled and
propagate to the host UI). -/
inductive Outcome where
  | ok
  | exn (msg : String)
deriving DecidableEq

/-- One user-visible output call recorded during a script run:
`predict` is a `model.predict` invocation (with the threshold argument the
call site passed, `none` when the call site passed no `conf=`);
`annotateCall` is an invocation of `process_results` (frame passed, number of
detections returned); `displayImage` is `st.image`/`stframe.image`;
`writeText` is `st.write`; `stError` is `st.error`. -/
inductive Event where
  | predict (conf : Option Rat) (frame : Frame)
  | annotateCall (frame : Frame) (numDets : Nat)
  | displayImage (frame : Frame)
  | writeText (s : String)
  | stError (s : String)
deriving DecidableEq

/-- The loaded YOLO model handle: an inference function (frame, optional
`conf=` threshold) that either returns results or raises, and the
`model.names` class-id-to-label mapping. -/
structure Model where
  predictWith : Frame → Option Rat → Except String (List DetResult)
  names : Nat → String

/-- A `cv2.VideoCapture`: whether it opened, and the finite list of frames
that successive `read()` calls will yield before a read returns
`ret == False`. -/
structure Capture where
  frames : List Frame
  opened : Bool
deriving DecidableEq

/-- The textual summary line written per detection in image mode (line 65):
`f"**{obj[0]}** (Confidence: {obj[1]:.2f})"`. -/
def summaryLine (d : Detection) : String :=
  "**" ++ d.1 ++ "** (Confidence: " ++ fmt2 d.2.1 ++ ")"

/-- The Home/Image branch body (lines 56-65), reached when an image is
uploaded and the model is loaded: predict with `conf=confidence`, annotate,
display the annotated array, write the header and one summary line per
detection.  An adapter exception aborts the run after the predict call. -/
def imageBranch (m : Model) (confidence : Rat) (img : Frame) : List Event × Outcome :=
  match m.predictWith img (some confidence) with
  | Except.error e => ([Event.predict (some confidence) img], Outcome.exn e)
  | Except.ok results =>
    let r := process_results m.names results img
    ([Event.predict (some confidence) img, Event.annotateCall img r.1.length,
      Event.displayImage r.2, Event.writeText "Detected Objects:"] ++
       r.1.map (fun d => Event.writeText (summaryLine d)), Outcome.ok)

/-- The `while cap.isOpened(): ...` body of the video branch (lines 76-82),
iterating over the frames the capture will yield.  A failed read
(`if not ret: break`) ends the loop normally; the `cap.release()` on line 83
runs only when the loop completes without a propagating exception, so the
returned flag (was the capture released?) is `true` exactly on normal exits.
Each successful iteration predicts with `conf=confidence`, runs
`process_results` on the frame, and displays the annotated frame. -/
def videoLoopFrames (m : Model) (confidence : Rat) :
    List Frame → List Event × Bool × Outcome
  | [] => ([], true, Outcome.ok)
  | f :: rest =>
    match m.predictWith f (some confidence) with
    | Except.error e => ([Event.predict (some confidence) f], false, Outcome.exn e)
    | Except.ok results =>
      let r := process_results m.names results f
      let rec_ := videoLoopFrames m confidence rest
      (Event.predict (some confidence) f :: Event.annotateCall f r.1.length ::
         Event.displayImage r.2 :: rec_.1, rec_.2)

/-- The Home/Video session (lines 70-83): open the capture on the uploaded
file and run the read-infer-annotate-display loop.  When the capture did not
open, the loop body never runs and `cap.release()` still executes. -/
def videoLoop (m : Model) (confidence : Rat) (cap : Capture) :
    List Event × Bool × Outcome :=
  if cap.opened then videoLoopFrames m confidence cap.frames
  else ([], true, Outcome.ok)

/-- The `while cap.isOpened(): ...` body of the webcam branch (lines 94-101).
Unlike the video loop, a failed read first reports
`st.error("Failed to capture image.")` and then breaks, and the
`model.predict(frame)` call passes no `conf=` argument.  `cap.release()` on
line 102 runs only when no exception propagates out of the loop. -/
def webcamLoopFrames (m : Model) : List Frame → List Event × Bool × Outcome
  | [] => ([Event.stError "Failed to capture image."], true, Outcome.ok)
  | f :: rest =>
    match m.predictWith f none with
    | Except.error e => ([Event.predict none f], false, Outcome.exn e)
    | Except.ok results =>
      let r := process_results m.names results f
      let rec_ := webcamLoopFrames m rest
      (Event.predict none f :: Event.annotateCall f r.1.length ::
         Event.displayImage r.2 :: rec_.1, rec_.2)

/-- The Live Detection webcam session (lines 90-102). -/
def webcamLoop (m : Model) (cap : Capture) : List Event × Bool × Outcome :=
  if cap.opened then webcamLoopFrames m cap.frames
  else ([], true, Outcome.ok)

/-- The sidebar menu (line 45-46). -/
inductive Menu where
  | home
  | liveDetection
  | about
  | developers
deriving DecidableEq

/-- The Home input-source selectbox (line 51). -/
inductive Source where
  | image
  | video
deriving DecidableEq

/-- The widget state of one script run: menu selection, input source,
confidence slider value (range 0.1-1.0, default 0.5), the uploaded image or
video if any (the video given as the capture its temp file opens to), the
webcam checkbox, and the capture that `cv2.VideoCapture(0)` yields. -/
structure UIInput where
  menu : Menu
  source : Source
  confidence : Rat
  uploadedImage : Option Frame
  uploadedVideo : Option Capture
  runWebcam : Bool
  webcamCap : Capture

/-- The `st.error` message of line 128. -/
def modelNotLoadedMsg : String :=
  "Model not loaded. Check the weights path or deployment environment."

/-- The menu dispatch (lines 49-124): each detection path runs only when its
input is present AND the model handle is truthy (`if uploaded_image and
model:`, `if uploaded_video and model:`, `if run_webcam and model:`). -/
def appBranch (modelOpt : Option Model) (ui : UIInput) : List Event × Outcome :=
  match ui.menu with
  | Menu.home =>
    match ui.source with
    | Source.image =>
      match ui.uploadedImage, modelOpt with
      | some img, some m => imageBranch m ui.confidence img
      | _, _ => ([], Outcome.ok)
    | Source.video =>
      match ui.uploadedVideo, modelOpt with
      | some cap, some m =>
        let r := videoLoop m ui.confidence cap
        (r.1, r.2.2)
      | _, _ => ([], Outcome.ok)
  | Menu.liveDetection =>
    match ui.runWebcam, modelOpt with
    | true, some m =>
      let r := webcamLoop m ui.webcamCap
      (r.1, r.2.2)
    | _, _ => ([], Outcome.ok)
  | Menu.about => ([], Outcome.ok)
  | Menu.developers => ([], Outcome.ok)

/-- One full script run: the menu dispatch followed by the bottom-of-script
`if not model: st.error(...)` (lines 127-128), which executes whenever the
run reaches the end of the script (i.e. no exception propagated). -/
def appRun (modelOpt : Option Model) (ui : UIInput) : List Event × Outcome :=
  match appBranch modelOpt ui with
  | (evs, Outcome.ok) =>
    if modelOpt.isSome then (evs, Outcome.ok)
    else (evs ++ [Event.stError modelNotLoadedMsg], Outcome.ok)
  | (evs, Outcome.exn e) => (evs, Outcome.exn e)

/-- The thresholds of the `model.predict` calls in a trace, in order. -/
def predictConfs (evs : List Event) : List (Option Rat) :=
  evs.filterMap fun e =>
    match e with
    | Event.predict c _ => some c
    | _ => none

/-- The frames handed to `st.image`/`stframe.image` in a trace, in order. -/
def displayedFrames (evs : List Event) : List Frame :=
  evs.filterMap fun e =>
    match e with
    | Event.displayImage f => some f
    | _ => none

/-- The strings handed to `st.write` in a trace, in order. -/
def writeTexts (evs : List Event) : List String :=
  evs.filterMap fun e =>
    match e with
    | Event.writeText s => some s
    | _ => none

/-- The strings handed to `st.error` in a trace, in order. -/
def stErrors (evs : List Event) : List String :=
  evs.filterMap fun e =>
    match e with
    | Event.stError s => some s
    | _ => none

/-- The `process_results` invocations in a trace, in order. -/
def annotateCalls (evs : List Event) : List (Frame × Nat) :=
  evs.filterMap fun e =>
    match e with
    | Event.annotateCall f n => some (f, n)
    | _ => none

/-- True iff the outcome is a normal completion. -/
def Outcome.isOk : Outcome → Bool
  | Outcome.ok => true
  | Outcome.exn _ => false

/-- Modelled from the spec: the Detector Adapter is the external ultralytics
library, not code of this repository; the spec describes the threshold as a
filter — "Confidence threshold: minimum score for a detection to be
reported" — on an otherwise deterministic per-frame candidate set.  The
candidates stand for the detector's raw (pre-threshold) output on a fixed
frame; the adapter reports those whose confidence is at least the
threshold. -/
def adapterPredict (candidates : List Box) (conf : Rat) : List Box :=
  candidates.filter fun b => conf ≤ b.conf

theorem videoLoopFrames_release (m : Model) (confidence : Rat) (frames : List Frame) :
    (videoLoopFrames m confidence frames).2.1 =
      ((videoLoopFrames m confidence frames).2.2).isOk := by
  induction frames with
  | nil => simp [videoLoopFrames, Outcome.isOk]
  | cons f rest ih =>
    simp only [videoLoopFrames]
    cases m.predictWith f (some confidence) with
    | error e => simp [Outcome.isOk]
    | ok results => simpa using ih

theorem webcamLoopFrames_release (m : Model) (frames : List Frame) :
    (webcamLoopFrames m frames).2.1 = ((webcamLoopFrames m frames).2.2).isOk := by
  induction frames with
  | nil => simp [webcamLoopFrames, Outcome.isOk]
  | cons f rest ih =>
    simp only [webcamLoopFrames]
    cases m.predictWith f none with
    | error e => simp [Outcome.isOk]
    | ok results => simpa using ih

theorem videoLoopFrames_confs (m : Model) (confidence : Rat) (frames : List Frame) :
    ∀ c ∈ predictConfs (videoLoopFrames m confidence frames).1, c = some confidence := by
  induction frames with
  | nil => simp [videoLoopFrames, predictConfs]
  | cons f rest ih =>
    simp only [videoLoopFrames]
    cases m.predictWith f (some confidence) with
    | error e => simp [predictConfs]
    | ok results =>
      intro c hc
      simp only [predictConfs, List.filterMap_cons] at hc
      simp only [List.mem_cons] at hc
      rcases hc with h | h
      · exact h
      · exact ih c (by simpa [predictConfs] using h)

theorem webcamLoopFrames_confs (m : Model) (frames : List Frame) :
    ∀ c ∈ predictConfs (webcamLoopFrames m frames).1, c = none := by
  induction frames with
  | nil => simp [webcamLoopFrames, predictConfs]
  | cons f rest ih =>
    simp only [webcamLoopFrames]
    cases m.predictWith f none with
    | error e => simp [predictConfs]
    | ok results =>
      intro c hc
      simp only [predictConfs, List.filterMap_cons] at hc
      simp only [List.mem_cons] at hc
      rcases hc with h | h
      · exact h
      · exact ih c (by simpa [predictConfs] using h)

theorem videoLoopFrames_writeTexts (m : Model) (confidence : Rat) (frames : List Frame) :
    writeTexts (videoLoopFrames m confidence frames).1 = [] := by
  induction frames with
  | nil => simp [videoLoopFrames, writeTexts]
  | cons f rest ih =>
    simp only [videoLoopFrames]
    cases m.predictWith f (some confidence) with
    | error e => simp [writeTexts]
    | ok results =>
      simp only [writeTexts, List.filterMap_cons] at ih ⊢
      simpa using ih

theorem webcamLoopFrames_writeTexts (m : Model) (frames : List Frame) :
    writeTexts (webcamLoopFrames m frames).1 = [] := by
  induction frames with
  | nil => simp [webcamLoopFrames, writeTexts]
  | cons f rest ih =>
    simp only [webcamLoopFrames]
    cases m.predictWith f none with
    | error e => simp [writeTexts]
    | ok results =>
      simp only [writeTexts, List.filterMap_cons] at ih ⊢
      simpa using ih

theorem appBranch_none (ui : UIInput) : appBranch none ui = ([], Outcome.ok) := by
  unfold appBranch
  cases ui.menu with
  | home =>
    cases ui.source with
    | image => cases ui.uploadedImage <;> rfl
    | video => cases ui.uploadedVideo <;> rfl
  | liveDetection => cases ui.runWebcam <;> rfl
  | about => rfl
  | developers => rfl

theorem appRun_none (ui : UIInput) :
    appRun none ui = ([Event.stError modelNotLoadedMsg], Outcome.ok) := by
  unfold appRun
  rw [appBranch_none]
  rfl

/-! ### Concrete fixtures used for counterexamples and witnesses -/

/-- A class-name mapping like `model.names` (class 0 is "person" in the
COCO-pretrained yolov8n weights). -/
def namesA : Nat → String := fun n => if n = 0 then "person" else "object"

/-- A different class-name mapping, as another weights file would provide. -/
def namesB : Nat → String := fun n => if n = 0 then "car" else "object"

/-- A concrete detector box. -/
def boxT : Box := Box.mk 10 20 110 220 0 (9/10)

/-- A concrete one-detection result list. -/
def resultsT : List DetResult := [DetResult.mk [boxT]]

/-- A concrete fresh frame. -/
def frameT : Frame := Frame.mk 0 []

/-- A model that always returns the one-detection result list. -/
def mGood : Model := Model.mk (fun _ _ => Except.ok resultsT) namesA

/-- A model whose inference raises (an adapter exception). -/
def mRaise : Model := Model.mk (fun _ _ => Except.error "adapter failure") namesA

/-- A capture that opened and yields exactly one frame. -/
def capOne : Capture := Capture.mk [frameT] true

/-- A capture that opened on a zero-frame (empty) video: the first read
fails. -/
def capEmpty : Capture := Capture.mk [] true

/-- Widget state: Live Detection selected, webcam checkbox ticked, slider at
its 0.5 default. -/
def uiWebcam : UIInput :=
  UIInput.mk Menu.liveDetection Source.image (1/2) none none true capOne

/-- A result list with results but no boxes at all (empty detection list). -/
def resultsEmptyT : List DetResult := [DetResult.mk [], DetResult.mk []]

/-- Number of `cv2.rectangle` calls recorded in a draw-op list. -/
def rectCount (ops : List DrawOp) : Nat :=
  ops.countP fun op =>
    match op with
    | DrawOp.rectangle .. => true
    | _ => false

/-- Number of `cv2.putText` calls recorded in a draw-op list. -/
def textCount (ops : List DrawOp) : Nat :=
  ops.countP fun op =>
    match op with
    | DrawOp.putText .. => true
    | _ => false

theorem annStep_foldl (names : Nat → String) (boxes : List Box)
    (acc : List Detection × Frame) :
    boxes.foldl (annStep names) acc =
      (acc.1 ++ boxes.map (detOf names),
       Frame.mk acc.2.base (acc.2.ops ++ boxes.flatMap (drawOpsOf names))) := by
  induction boxes generalizing acc with
  | nil => simp
  | cons b bs ih =>
    simp [annStep, ih]

theorem process_results_spec (names : Nat → String) (results : List DetResult)
    (image : Frame) :
    process_results names results image =
      ((results.flatMap DetResult.boxes).map (detOf names),
       Frame.mk image.base
         (image.ops ++ (results.flatMap DetResult.boxes).flatMap (drawOpsOf names))) := by
  unfold process_results
  suffices h : ∀ (rs : List DetResult) (acc : List Detection × Frame),
      rs.foldl (fun acc result => result.boxes.foldl (annStep names) acc) acc =
        (acc.1 ++ (rs.flatMap DetResult.boxes).map (detOf names),
         Frame.mk acc.2.base
           (acc.2.ops ++ (rs.flatMap DetResult.boxes).flatMap (drawOpsOf names))) by
    simpa using h results ([], image)
  intro rs
  induction rs with
  | nil => simp
  | cons r rs ih =>
    intro acc
    rw [List.foldl_cons, annStep_foldl, ih]
    simp

theorem rectCount_flatMap_drawOps (names : Nat → String) (boxes : List Box) :
    rectCount (boxes.flatMap (drawOpsOf names)) = boxes.length := by
  induction boxes with
  | nil => rfl
  | cons b bs ih =>
    simp only [List.flatMap_cons, rectCount, List.countP_append] at ih ⊢
    rw [ih]
    simp [drawOpsOf, List.countP_cons, Nat.add_comm]

theorem textCount_flatMap_drawOps (names : Nat → String) (boxes : List Box) :
    textCount (boxes.flatMap (drawOpsOf names)) = boxes.length := by
  induction boxes with
  | nil => rfl
  | cons b bs ih =>
    simp only [List.flatMap_cons, textCount, List.countP_append] at ih ⊢
    rw [ih]
    simp [drawOpsOf, List.countP_cons, Nat.add_comm]

theorem writeTexts_append (l1 l2 : List Event) :
    writeTexts (l1 ++ l2) = writeTexts l1 ++ writeTexts l2 := by
  simp [writeTexts, List.filterMap_append]

theorem writeTexts_map_summary (g : Detection → String) (l : List Detection) :
    writeTexts (l.map fun d => Event.writeText (g d)) = l.map g := by
  induction l with
  | nil => rfl
  | cons d ds ih =>
    simp only [List.map_cons, writeTexts, List.filterMap_cons] at ih ⊢
    rw [ih]

theorem imageBranch_confs (m : Model) (confidence : Rat) (img : Frame) :
    predictConfs (imageBranch m confidence img).1 = [some confidence] := by
  unfold imageBranch
  cases m.predictWith img (some confidence) with
  | error e => rfl
  | ok results =>
    simp only [predictConfs, List.filterMap_append, List.filterMap_cons,
      List.filterMap_map]
    simp

theorem videoLoop_confs (m : Model) (confidence : Rat) (cap : Capture) :
    ∀ c ∈ predictConfs (videoLoop m confidence cap).1, c = some confidence := by
  by_cases h : cap.opened
  · simpa only [videoLoop, h, if_true] using
      videoLoopFrames_confs m confidence cap.frames
  · simp [videoLoop, h, predictConfs]

theorem webcamLoop_confs (m : Model) (cap : Capture) :
    ∀ c ∈ predictConfs (webcamLoop m cap).1, c = none := by
  by_cases h : cap.opened
  · simpa only [webcamLoop, h, if_true] using webcamLoopFrames_confs m cap.frames
  · simp [webcamLoop, h, predictConfs]

theorem videoLoop_writeTexts (m : Model) (confidence : Rat) (cap : Capture) :
    writeTexts (videoLoop m confidence cap).1 = [] := by
  by_cases h : cap.opened
  · simpa only [videoLoop, h, if_true] using
      videoLoopFrames_writeTexts m confidence cap.frames
  · simp [videoLoop, h, writeTexts]

theorem webcamLoop_writeTexts (m : Model) (cap : Capture) :
    writeTexts (webcamLoop m cap).1 = [] := by
  by_cases h : cap.opened
  · simpa only [webcamLoop, h, if_true] using webcamLoopFrames_writeTexts m cap.frames
  · simp [webcamLoop, h, writeTexts]

theorem videoLoop_release (m : Model) (confidence : Rat) (cap : Capture) :
    (videoLoop m confidence cap).2.1 = ((videoLoop m confidence cap).2.2).isOk := by
  by_cases h : cap.opened
  · simpa only [videoLoop, h, if_true] using
      videoLoopFrames_release m confidence cap.frames
  · simp [videoLoop, h, Outcome.isOk]

theorem webcamLoop_release (m : Model) (cap : Capture) :
    (webcamLoop m cap).2.1 = ((webcamLoop m cap).2.2).isOk := by
  by_cases h : cap.opened
  · simpa only [webcamLoop, h, if_true] using webcamLoopFrames_release m cap.frames
  · simp [webcamLoop, h, Outcome.isOk]

/-! ### Claims -/

/-- C1, counterexample: the claim says every call to the Detector Adapter
passes the user-selected threshold, in every mode.  In the webcam session
(`model.predict(frame)`, app.py line 99) the call passes no `conf=` argument
at all: with the model loaded, the webcam checkbox ticked and one readable
frame, the sole predict call of the run carries threshold `none`, not the
selected `some uiWebcam.confidence`. -/
theorem C1_counterexample :
    predictConfs (appRun (some mGood) uiWebcam).1 = [none] ∧
    (none : Option Rat) ≠ some uiWebcam.confidence := by
  constructor
  · rfl
  · decide

/-- C1, amended: in image and video modes every Detector Adapter call passes
the user-selected threshold; the webcam loop's adapter calls pass no
threshold (the library default applies, and the Live Detection page exposes
no slider). -/
theorem C1_amended_thm (m : Model) (confidence : Rat) (img : Frame)
    (cap cap2 : Capture) :
    predictConfs (imageBranch m confidence img).1 = [some confidence] ∧
    (∀ c ∈ predictConfs (videoLoop m confidence cap).1, c = some confidence) ∧
    (∀ c ∈ predictConfs (webcamLoop m cap2).1, c = none) :=
  ⟨imageBranch_confs m confidence img, videoLoop_confs m confidence cap,
   webcamLoop_confs m cap2⟩

/-- C1, amended, witness at concrete inputs: the image branch with the
default threshold makes exactly one adapter call, carrying that threshold;
the one webcam adapter call carries none. -/
theorem C1_amended_witness :
    predictConfs (imageBranch mGood (1/2) frameT).1 = [some (1/2 : Rat)] ∧
    (none : Option Rat) = none :=
  ⟨(C1_amended_thm mGood (1/2) frameT capOne capOne).1,
   (C1_amended_thm mGood (1/2) frameT capOne capOne).2.2 none (by decide)⟩

/-- C2, counterexample: the claim says the capture is released on every exit
path from the loop, including a failure raised inside the loop body.  With a
model whose inference raises and a capture holding one frame, the exception
propagates out of the video loop and `cap.release()` (line 83) is never
executed: the session ends with the capture unreleased. -/
theorem C2_counterexample :
    (videoLoop mRaise (1/2) capOne).2.1 = false ∧
    (videoLoop mRaise (1/2) capOne).2.2 = Outcome.exn "adapter failure" := by
  constructor <;> rfl

/-- C2, amended: in video and webcam modes the capture is released exactly on
the normal exit paths of the loop — stream exhaustion, read failure, or the
capture never having opened — i.e. whenever no exception propagates out of
the loop body; a propagating exception skips the release. -/
theorem C2_amended_thm (m : Model) (confidence : Rat) (cap cap2 : Capture) :
    (videoLoop m confidence cap).2.1 = ((videoLoop m confidence cap).2.2).isOk ∧
    (webcamLoop m cap2).2.1 = ((webcamLoop m cap2).2.2).isOk :=
  ⟨videoLoop_release m confidence cap, webcamLoop_release m cap2⟩

/-- C3, counterexample: the claim says every mode hands the Presentation
Layer both the annotated frame and a textual detection summary per frame.
A video run over one frame with one detection displays exactly one frame,
runs the annotator on a detection, and performs no `st.write` at all: the
video (and webcam) loops display only the frame. -/
theorem C3_counterexample :
    (displayedFrames (videoLoop mGood (1/2) capOne).1).length = 1 ∧
    annotateCalls (videoLoop mGood (1/2) capOne).1 = [(frameT, 1)] ∧
    writeTexts (videoLoop mGood (1/2) capOne).1 = [] := by
  refine ⟨rfl, by decide, rfl⟩

/-- C3, amended: only the image branch hands the Presentation Layer a
textual detection summary — the header line followed by one
`**label** (Confidence: x.xx)` line per detection — alongside the single
displayed annotated frame; the video and webcam loops display annotated
frames but never write a textual summary. -/
theorem C3_amended_thm (m : Model) (confidence : Rat) (img : Frame)
    (results : List DetResult) (cap cap2 : Capture)
    (h : m.predictWith img (some confidence) = Except.ok results) :
    writeTexts (imageBranch m confidence img).1 =
      "Detected Objects:" :: (process_results m.names results img).1.map summaryLine ∧
    (displayedFrames (imageBranch m confidence img).1).length = 1 ∧
    writeTexts (videoLoop m confidence cap).1 = [] ∧
    writeTexts (webcamLoop m cap2).1 = [] := by
  refine ⟨?_, ?_, videoLoop_writeTexts m confidence cap, webcamLoop_writeTexts m cap2⟩
  · unfold imageBranch
    rw [h]
    simp only [writeTexts_append, writeTexts_map_summary]
    simp [writeTexts]
  · unfold imageBranch
    rw [h]
    simp only [displayedFrames, List.filterMap_append, List.filterMap_cons,
      List.filterMap_map]
    simp

/-- C3, amended, witness at concrete inputs: one-detection image run. -/
theorem C3_amended_witness :
    writeTexts (imageBranch mGood (1/2) frameT).1 =
      "Detected Objects:" ::
        (process_results mGood.names resultsT frameT).1.map summaryLine ∧
    (displayedFrames (imageBranch mGood (1/2) frameT).1).length = 1 ∧
    writeTexts (videoLoop mGood (1/2) capOne).1 = [] ∧
    writeTexts (webcamLoop mGood capOne).1 = [] :=
  C3_amended_thm mGood (1/2) frameT resultsT capOne capOne rfl

/-- C4: when the model handle is absent (`load_model` returned `None`), every
UI path is inert — the run makes no adapter call and displays no frame — and
the bottom-of-script `if not model:` surfaces the "model not loaded"
message.  The whole trace of any run is exactly that one error message. -/
theorem C4_thm (ui : UIInput) :
    appRun none ui = ([Event.stError modelNotLoadedMsg], Outcome.ok) ∧
    predictConfs (appRun none ui).1 = [] ∧
    displayedFrames (appRun none ui).1 = [] := by
  refine ⟨appRun_none ui, ?_, ?_⟩ <;> rw [appRun_none] <;> rfl

/-- C5: for any frame and detector output, `process_results` returns the
pass-through list — one `(label, conf, box)` tuple per box, in order, with
the label text `names[cls]`, the confidence, and the truncated coordinates —
and appends to the frame, per detection, exactly one unfilled rectangle
(thickness 2 outline at the box corners) and one text label whose string is
the class name with the confidence rounded to two decimals, positioned at
`(x1, y1 - 10)`, just above the box's top edge (see `drawOpsOf`).  The
rectangle count and label count added each equal the number of detections. -/
theorem C5_thm (names : Nat → String) (results : List DetResult) (image : Frame)
    (h : results.flatMap DetResult.boxes ≠ []) :
    (process_results names results image).1 =
      (results.flatMap DetResult.boxes).map (detOf names) ∧
    (process_results names results image).2.ops =
      image.ops ++ (results.flatMap DetResult.boxes).flatMap (drawOpsOf names) ∧
    rectCount (process_results names results image).2.ops =
      rectCount image.ops + (results.flatMap DetResult.boxes).length ∧
    textCount (process_results names results image).2.ops =
      textCount image.ops + (results.flatMap DetResult.boxes).length := by
  rw [process_results_spec]
  refine ⟨rfl, rfl, ?_, ?_⟩
  · simp only [rectCount, List.countP_append]
    rw [← rectCount_flatMap_drawOps names (results.flatMap DetResult.boxes)]
    rfl
  · simp only [textCount, List.countP_append]
    rw [← textCount_flatMap_drawOps names (results.flatMap DetResult.boxes)]
    rfl

/-- C5, witness: one detection on a fresh frame. -/
theorem C5_witness :
    (process_results namesA resultsT frameT).1 =
      (resultsT.flatMap DetResult.boxes).map (detOf namesA) ∧
    (process_results namesA resultsT frameT).2.ops =
      frameT.ops ++ (resultsT.flatMap DetResult.boxes).flatMap (drawOpsOf namesA) ∧
    rectCount (process_results namesA resultsT frameT).2.ops =
      rectCount frameT.ops + (resultsT.flatMap DetResult.boxes).length ∧
    textCount (process_results namesA resultsT frameT).2.ops =
      textCount frameT.ops + (resultsT.flatMap DetResult.boxes).length :=
  C5_thm namesA resultsT frameT (by decide)

/-- C6: `process_results` never replaces the frame buffer (the output frame
is the same buffer, `base` preserved, only with draw operations appended),
and on an empty detection list it performs no drawing at all: the returned
list is empty and the frame is pixel-identical to the input. -/
theorem C6_thm (names : Nat → String) (results : List DetResult) (image : Frame) :
    (process_results names results image).2.base = image.base ∧
    (results.flatMap DetResult.boxes = [] →
      process_results names results image = ([], image)) := by
  rw [process_results_spec]
  refine ⟨rfl, fun h => ?_⟩
  rw [h]
  simp

/-- C6, witness: a result list with no boxes leaves the frame untouched. -/
theorem C6_witness :
    (process_results namesA resultsEmptyT frameT).2.base = frameT.base ∧
    process_results namesA resultsEmptyT frameT = ([], frameT) :=
  ⟨(C6_thm namesA resultsEmptyT frameT).1,
   (C6_thm namesA resultsEmptyT frameT).2 (by decide)⟩

/-- C7: a video-mode run on a zero-frame video (capture opened, first read
fails) terminates immediately with an empty trace — no frame displayed, no
error surfaced — releases the capture, and the whole script run completes
normally. -/
theorem C7_thm (m : Model) (confidence : Rat) :
    videoLoop m confidence (Capture.mk [] true) = ([], true, Outcome.ok) ∧
    appRun (some m)
      (UIInput.mk Menu.home Source.video confidence none
        (some (Capture.mk [] true)) false (Capture.mk [] true)) =
      ([], Outcome.ok) := by
  constructor <;> rfl

/-- C8: the Detector Adapter modelled from the spec as threshold filtering is
monotone — raising the confidence threshold never increases the number of
detections returned for a fixed candidate set. -/
theorem C8_thm (candidates : List Box) (t1 t2 : Rat) (h : t1 ≤ t2) :
    (adapterPredict candidates t2).length ≤ (adapterPredict candidates t1).length := by
  unfold adapterPredict
  induction candidates with
  | nil => simp
  | cons b bs ih =>
    simp only [List.filter_cons]
    by_cases h2 : t2 ≤ b.conf
    · have h1 : t1 ≤ b.conf := le_trans h h2
      simpa [h1, h2] using ih
    · by_cases h1 : t1 ≤ b.conf
      · simp only [h1, h2, decide_eq_true_eq, if_false, decide_eq_false_iff_not]
        simp [h1, h2]
        exact Nat.le_succ_of_le ih
      · simpa [h1, h2] using ih

/-- C8, witness: thresholds 1/4 ≤ 3/4 on the concrete candidate set. -/
theorem C8_witness :
    ((1 : Rat)/4 ≤ 3/4) ∧
    (adapterPredict [boxT] (3/4)).length ≤ (adapterPredict [boxT] (1/4)).length :=
  ⟨by norm_num, C8_thm [boxT] (1/4) (3/4) (by norm_num)⟩

/-- C9, counterexample: the claim says the annotator's behaviour and return
value depend only on its frame and detections arguments, independent of any
other program state.  But `process_results` reads the global model handle
(`model.names`, line 32): two invocations with identical `results` and
`image` arguments under different loaded weights (class 0 named "person"
vs "car") return different detection lists and draw different label text. -/
theorem C9_counterexample :
    process_results namesA resultsT frameT ≠ process_results namesB resultsT frameT := by
  decide

/-- C9, amended: `process_results` is deterministic and effect-free apart
from the in-place drawing, but its behaviour depends on the global model's
`names` mapping as well as its arguments: given the names mapping, the
frame and the results, its output is exactly the mapped detection list and
the frame with the per-detection draw operations appended — no I/O, no
retained state, same output on every invocation with the same names, frame
and detections. -/
theorem C9_amended_thm (names : Nat → String) (results : List DetResult)
    (image : Frame) :
    process_results names results image =
      ((results.flatMap DetResult.boxes).map (detOf names),
       Frame.mk image.base
         (image.ops ++ (results.flatMap DetResult.boxes).flatMap (drawOpsOf names))) :=
  process_results_spec names results image

/-- C10: the `model.names` dereference inside `process_results` never
executes against an absent model: every UI path that reaches
`process_results` (image upload, video upload, webcam checkbox) is guarded
by a truthiness check on the model, so a run with the model handle absent
contains no `process_results` invocation at all, whatever the widget
state. -/
theorem C10_thm (ui : UIInput) :
    annotateCalls (appRun none ui).1 = [] := by
  rw [appRun_none]
  rfl

end ObjDetect
